import Mathlib

/-!
Verification of the crosvm device-isolation layer (`ProxyDevice`):
a shallow embedding of `src/devices/src/proxy.rs` (the child session loop
`child_proc`, the parent-side `ProxyDevice` marshalling, activation via
`TryFrom<ChildProcIntf>`) and of the keep-list handling in
`src/base/src/sys/linux/process.rs` (`fork_process`), together with proofs
of the specified protocol properties.

Bytes are modelled as `Nat`, buffers as `List Nat` (the fixed-size Rust
arrays `[u8; 8]` / `[u8; 4]` are lists of that length, enforced by the
parent-side marshalling that constructs them).
-/

namespace Crosvm

/-- Rust `BusAccessInfo {offset: u64, address: u64, id: u32}` — identifies one bus
access; opaque to the proxying layer and forwarded verbatim
(modelled from the spec §3; the defining `bus.rs` is not part of this tree). -/
structure BusAccessInfo where
  offset : Nat
  address : Nat
  id : Nat
deriving DecidableEq, Repr

/-- Rust `BusRange` — an address range a device occupies on the bus (opaque payload
here; carried through `WriteConfigResult` and `GetRangesResult`). -/
structure BusRange where
  base : Nat
  len : Nat
deriving DecidableEq, Repr

/-- Bus kind tag carried with each range by `get_ranges`. -/
inductive BusType
  | Io
  | Mmio
deriving DecidableEq, Repr

/-- Rust `PciAddress` — identity of a PCI device removed by a config write. -/
structure PciAddress where
  bus : Nat
  dev : Nat
  func : Nat
deriving DecidableEq, Repr

/-- Rust `ConfigWriteResult`: the structural bus-topology deltas a config-space
write may produce (BAR reprogramming etc.). `Default::default()` is all-empty. -/
structure ConfigWriteResult where
  mmio_remove : List BusRange := []
  mmio_add : List BusRange := []
  io_remove : List BusRange := []
  io_add : List BusRange := []
  removed_pci_devices : List PciAddress := []
deriving DecidableEq, Repr

/-- Stand-in for an opaque `serde_json::Value` snapshot payload. -/
structure JsonValue where
  val : Nat
deriving DecidableEq, Repr

/-- Stand-in for the device model's error type (`anyhow::Error`); the child
loop only ever observes it through `e.to_string()`, modelled by `msg`. -/
structure DevError where
  msg : String
deriving DecidableEq, Repr

/-- Stand-in for a `SharedMemory` descriptor attached to
`InitPciConfigMapping` (opaque handle). -/
structure SharedMemory where
  handle : Nat
deriving DecidableEq, Repr

/-- The wire protocol request set (`enum Command` in proxy.rs). The fixed
arrays `[u8; 8]` / `[u8; 4]` are `List Nat` fields; well-formed messages
(those the parent constructs) have them at length 8 resp. 4. -/
inductive Command
  | Activate
  | Read (len : Nat) (info : BusAccessInfo)
  | Write (len : Nat) (info : BusAccessInfo) (data : List Nat)
  | ReadConfig (idx : Nat)
  | WriteConfig (reg_idx : Nat) (offset : Nat) (len : Nat) (data : List Nat)
  | InitPciConfigMapping (shmem : SharedMemory) (base : Nat) (len : Nat)
  | ReadVirtualConfig (idx : Nat)
  | WriteVirtualConfig (reg_idx : Nat) (value : Nat)
  | DestroyDevice
  | Shutdown
  | GetRanges
  | Snapshot
  | Restore (data : JsonValue)
  | Sleep
  | Wake
deriving DecidableEq, Repr

deriving instance DecidableEq for Except

/-- The wire protocol response set (`enum CommandResult` in proxy.rs). -/
inductive CommandResult
  | Ok
  | ReadResult (bytes : List Nat)
  | ReadConfigResult (val : Nat)
  | WriteConfigResult (mmio_remove : List BusRange) (mmio_add : List BusRange)
      (io_remove : List BusRange) (io_add : List BusRange)
      (removed_pci_devices : List PciAddress)
  | InitPciConfigMappingResult (success : Bool)
  | ReadVirtualConfigResult (val : Nat)
  | GetRangesResult (ranges : List (BusRange × BusType))
  | SnapshotResult (res : Except String JsonValue)
  | RestoreResult (res : Except String Unit)
  | SleepResult (res : Except String Unit)
  | WakeResult (res : Except String Unit)
deriving DecidableEq, Repr

/-- The device-model interface (`trait BusDevice` + `trait Suspendable`),
modelled from the spec §2 "DeviceCapability"/"PowerLifecycle" and from the
call sites in `child_proc` (the defining `bus.rs` is not part of this tree).
A device is a state type `σ` with explicit state-passing operations; `&mut
self` methods return the new state. `read` receives the buffer slice handed
to it and returns the slice contents after the device wrote into it (a
device may leave bytes untouched, as `&mut [u8]` allows). -/
structure BusDevice (σ : Type) where
  read : σ → BusAccessInfo → List Nat → σ × List Nat
  write : σ → BusAccessInfo → List Nat → σ
  config_register_read : σ → Nat → Nat
  config_register_write : σ → Nat → Nat → List Nat → σ × ConfigWriteResult
  init_pci_config_mapping : σ → SharedMemory → Nat → Nat → σ × Bool
  virtual_config_register_read : σ → Nat → Nat
  virtual_config_register_write : σ → Nat → Nat → σ
  destroy_device : σ → σ
  get_ranges : σ → List (BusRange × BusType)
  snapshot : σ → σ × Except DevError JsonValue
  restore : σ → JsonValue → σ × Except DevError Unit
  sleep : σ → σ × Except DevError Unit
  wake : σ → σ × Except DevError Unit

/-- Rust `&mut [u8]` slices have fixed length: a lawful device's `read` fills (part
of) the buffer it was handed but cannot change its length. -/
def ReadLenPreserving {σ : Type} (d : BusDevice σ) : Prop :=
  ∀ s info buf, (d.read s info buf).2.length = buf.length

/-- Rust `e.to_string()` applied to the device model's error, as the child loop
does with `res.map_err(|e| e.to_string())`. -/
def errString {α : Type} : Except DevError α → Except String α
  | .ok a => .ok a
  | .error e => .error e.msg

/-- Outcome of dispatching one received command in the child's `Active` loop
(the big `match cmd` in `child_proc`):
* `cont s' resp` — the loop continues with device state `s'` after attempting
  to send the responses in `resp` (`[]` for `Write`/`DestroyDevice`);
* `shutdownReturn` — the `Shutdown` arm: the device is dropped, then `Ok` is
  sent, then `child_proc` returns;
* `panic` — the arm panics (duplicate `Activate`, or a slice index
  `data[0..len]` out of bounds). -/
inductive ChildStep (σ : Type)
  | cont (s : σ) (resp : List CommandResult)
  | shutdownReturn
  | panic
deriving DecidableEq

/-- One dispatch of the child's `Active`-state `match cmd` block in
`child_proc` (proxy.rs lines 142–226), translated arm by arm. Slicing
`buffer[0..len]` of an 8-byte (resp. 4-byte) array panics when `len`
exceeds the array length, hence the bounds tests. In the `Read` arm the
device writes into `buffer[0..len]` of a zeroed 8-byte array and the whole
array is sent back. -/
def dispatch {σ : Type} (d : BusDevice σ) (s : σ) : Command → ChildStep σ
  | .Activate => .panic
  | .Read len info =>
      if len ≤ 8 then
        let r := d.read s info (List.replicate len 0)
        .cont r.1 [.ReadResult (r.2.take len ++ List.replicate (8 - len) 0)]
      else .panic
  | .Write len info data =>
      if len ≤ data.length then .cont (d.write s info (data.take len)) []
      else .panic
  | .ReadConfig idx => .cont s [.ReadConfigResult (d.config_register_read s idx)]
  | .WriteConfig reg_idx offset len data =>
      if len ≤ data.length then
        let r := d.config_register_write s reg_idx offset (data.take len)
        .cont r.1 [.WriteConfigResult r.2.mmio_remove r.2.mmio_add r.2.io_remove
          r.2.io_add r.2.removed_pci_devices]
      else .panic
  | .InitPciConfigMapping shmem base len =>
      let r := d.init_pci_config_mapping s shmem base len
      .cont r.1 [.InitPciConfigMappingResult r.2]
  | .ReadVirtualConfig idx =>
      .cont s [.ReadVirtualConfigResult (d.virtual_config_register_read s idx)]
  | .WriteVirtualConfig reg_idx value =>
      .cont (d.virtual_config_register_write s reg_idx value) [.Ok]
  | .DestroyDevice => .cont (d.destroy_device s) []
  | .Shutdown => .shutdownReturn
  | .GetRanges => .cont s [.GetRangesResult (d.get_ranges s)]
  | .Snapshot =>
      let r := d.snapshot s
      .cont r.1 [.SnapshotResult (errString r.2)]
  | .Restore data =>
      let r := d.restore s data
      .cont r.1 [.RestoreResult (errString r.2)]
  | .Sleep =>
      let r := d.sleep s
      .cont r.1 [.SleepResult (errString r.2)]
  | .Wake =>
      let r := d.wake s
      .cont r.1 [.WakeResult (errString r.2)]

/-- One interaction step offered to the child by the channel: `recv` is the
outcome of `tube.recv()` (`none` = receive error, peer gone), and `sendOk`
says whether a `tube.send` the child performs while handling this message
succeeds (at most one send happens per received message). -/
structure StepIn where
  recv : Option Command
  sendOk : Bool
deriving DecidableEq, Repr

/-- Externally observable events of the child session, in order:
`send r ok` is an attempted `tube.send` of response `r` (`ok` = delivered),
`log` is an `error!` report, `deviceDropped` is the device model's teardown
(its `Drop` implementation) running. -/
inductive Event
  | send (r : CommandResult) (ok : Bool)
  | log
  | deviceDropped
deriving DecidableEq, Repr

/-- How the child session ends on a given (finite) channel trace. -/
inductive Outcome
  | running            -- input exhausted, child still blocked in `tube.recv()`
  | returnedPreActivation  -- `return` taken before activation completed
  | exitedLoop         -- `break` after a post-activation receive failure
  | shutdownReturn     -- `return` from the `Command::Shutdown` arm
  | panicked           -- a `panic!` fired (process aborts)
deriving DecidableEq, Repr

/-- The events emitted while handling one `Active`-loop message whose dispatch
continued the loop: each response in `resp` is sent in order; a failed send
is followed by the `error!` log at the loop tail (`if let Err(e) = res`). -/
def contEvents (resp : List CommandResult) (sendOk : Bool) : List Event :=
  (resp.map (Event.send · sendOk)) ++ (if sendOk ∨ resp.isEmpty then [] else [.log])

/-- The child's `Active`-state service loop (the `loop` in `child_proc`,
proxy.rs lines 133–230), run over a finite channel trace. Receive failure
logs and `break`s out of the loop, after which `child_proc` returns and the
device is dropped at end of scope. The `Shutdown` arm drops the device,
then sends `Ok` ignoring the send result, then returns, leaving the rest of
the trace unserviced. A `panic!` (duplicate `Activate`, out-of-bounds
slice) aborts with no event. -/
def childActive {σ : Type} (d : BusDevice σ) (s : σ) : List StepIn → List Event × Outcome
  | [] => ([], .running)
  | step :: rest =>
    match step.recv with
    | none => ([.log, .deviceDropped], .exitedLoop)
    | some cmd =>
      match dispatch d s cmd with
      | .panic => ([], .panicked)
      | .shutdownReturn => ([.deviceDropped, .send .Ok step.sendOk], .shutdownReturn)
      | .cont s' resp =>
        let k := childActive d s' rest
        (contEvents resp step.sendOk ++ k.1, k.2)

/-- The whole child session `child_proc` (proxy.rs lines 113–231): first the
activation handshake — a receive failure logs, drops the device and
returns; a first message other than `Activate` panics; on `Activate` the
`Ok` acknowledgment is sent (a failed send logs and returns) — then the
`Active` service loop. -/
def child_proc {σ : Type} (d : BusDevice σ) (s : σ) : List StepIn → List Event × Outcome
  | [] => ([], .running)
  | step :: rest =>
    match step.recv with
    | none => ([.log, .deviceDropped], .returnedPreActivation)
    | some .Activate =>
      if step.sendOk then
        let k := childActive d s rest
        (.send .Ok true :: k.1, k.2)
      else ([.send .Ok false, .log, .deviceDropped], .returnedPreActivation)
    | some _ => ([], .panicked)

/-- Whether the parent awaits a response: `sync_send` operations block for
one, `send_no_result` operations are fire-and-forget. -/
inductive ProxyCall
  | sync (cmd : Command)
  | fireAndForget (cmd : Command)
deriving DecidableEq, Repr

namespace ProxyDevice

/-- Rust `let mut buffer = [0u8; n]; buffer[0..data.len()].clone_from_slice(data)`:
the fixed-size marshalling buffer after copying `data` into its front
(faithful for `data.length ≤ n`; in Rust a longer `data` panics). -/
def padTo (n : Nat) (data : List Nat) : List Nat :=
  data ++ List.replicate (n - data.length) 0

/-- Rust `ProxyDevice::read` marshals `Command::Read { len: data.len(), info }` and
blocks for the response (`sync_send`). -/
def read_call (info : BusAccessInfo) (data : List Nat) : ProxyCall :=
  .sync (.Read data.length info)

/-- Rust `ProxyDevice::read` unmarshalling: on a `ReadResult` response the caller's
buffer is overwritten with `buffer[0..len]` (`clone_from_slice`); on a
channel failure or any other response shape the buffer is left as it was. -/
def read_update (data : List Nat) : Option CommandResult → List Nat
  | some (.ReadResult buffer) => buffer.take data.length
  | _ => data

/-- Rust `ProxyDevice::write` marshals the data into an 8-byte buffer and sends
`Command::Write` without awaiting a response (`send_no_result`). -/
def write_call (info : BusAccessInfo) (data : List Nat) : ProxyCall :=
  .fireAndForget (.Write data.length info (padTo 8 data))

/-- Rust `ProxyDevice::config_register_read` request. -/
def config_register_read_call (reg_idx : Nat) : ProxyCall :=
  .sync (.ReadConfig reg_idx)

/-- Rust `ProxyDevice::config_register_read` unmarshalling: `0` unless the response
is a matching `ReadConfigResult`. -/
def config_register_read_update : Option CommandResult → Nat
  | some (.ReadConfigResult val) => val
  | _ => 0

/-- Rust `ProxyDevice::config_register_write` request (4-byte marshalling buffer). -/
def config_register_write_call (reg_idx offset : Nat) (data : List Nat) : ProxyCall :=
  .sync (.WriteConfig reg_idx offset data.length (padTo 4 data))

/-- Rust `ProxyDevice::config_register_write` unmarshalling: the carried deltas on
a matching `WriteConfigResult`, otherwise `Default::default()`. -/
def config_register_write_update : Option CommandResult → ConfigWriteResult
  | some (.WriteConfigResult mr ma ir ia rp) =>
      { mmio_remove := mr, mmio_add := ma, io_remove := ir, io_add := ia,
        removed_pci_devices := rp }
  | _ => {}

/-- Rust `ProxyDevice::virtual_config_register_read` request. -/
def virtual_config_register_read_call (reg_idx : Nat) : ProxyCall :=
  .sync (.ReadVirtualConfig reg_idx)

/-- Rust `ProxyDevice::virtual_config_register_read` unmarshalling: `0` unless the
response is a matching `ReadVirtualConfigResult`. -/
def virtual_config_register_read_update : Option CommandResult → Nat
  | some (.ReadVirtualConfigResult val) => val
  | _ => 0

/-- Rust `ProxyDevice::virtual_config_register_write` sends through `sync_send`
(blocking for the response) and discards the result. -/
def virtual_config_register_write_call (reg_idx value : Nat) : ProxyCall :=
  .sync (.WriteVirtualConfig reg_idx value)

/-- Rust `ProxyDevice::virtual_config_register_write` discards whatever response
arrives (or none) and returns unit. -/
def virtual_config_register_write_update : Option CommandResult → Unit :=
  fun _ => ()

/-- Rust `ProxyDevice::get_ranges` request. -/
def get_ranges_call : ProxyCall := .sync .GetRanges

/-- Rust `ProxyDevice::get_ranges` unmarshalling: `Default::default()` (the empty
list) unless the response is a matching `GetRangesResult`. -/
def get_ranges_update : Option CommandResult → List (BusRange × BusType)
  | some (.GetRangesResult ranges) => ranges
  | _ => []

/-- Rust `ProxyDevice::destroy_device` is fire-and-forget. -/
def destroy_device_call : ProxyCall := .fireAndForget .DestroyDevice

/-- Rust `<ProxyDevice as Suspendable>::snapshot` unmarshalling: the snapshot value
on `SnapshotResult(Ok)`, a reported error wrapping the device's error
string on `SnapshotResult(Err)`, and a reported "unexpected result" error
on channel failure or any other response shape. -/
def snapshot_update (label : String) : Option CommandResult → Except String JsonValue
  | some (.SnapshotResult (.ok snap)) => .ok snap
  | some (.SnapshotResult (.error e)) => .error ("failed to snapshot " ++ label ++ ": " ++ e)
  | _ => .error "unexpected snapshot result"

/-- Rust `<ProxyDevice as Suspendable>::restore` unmarshalling. -/
def restore_update (label : String) : Option CommandResult → Except String Unit
  | some (.RestoreResult (.ok ())) => .ok ()
  | some (.RestoreResult (.error e)) => .error ("failed to restore " ++ label ++ ": " ++ e)
  | _ => .error "unexpected restore result"

/-- Rust `<ProxyDevice as Suspendable>::sleep` unmarshalling. -/
def sleep_update (label : String) : Option CommandResult → Except String Unit
  | some (.SleepResult (.ok ())) => .ok ()
  | some (.SleepResult (.error e)) => .error ("failed to sleep " ++ label ++ ": " ++ e)
  | _ => .error "unexpected sleep result"

/-- Rust `<ProxyDevice as Suspendable>::wake` unmarshalling. -/
def wake_update (label : String) : Option CommandResult → Except String Unit
  | some (.WakeResult (.ok ())) => .ok ()
  | some (.WakeResult (.error e)) => .error ("failed to wake " ++ label ++ ": " ++ e)
  | _ => .error "unexpected wake result"

/-- Rust `Drop for ProxyDevice` issues `sync_send(&Command::Shutdown)` and discards
the result. -/
def drop_call : ProxyCall := .sync .Shutdown

end ProxyDevice

/-- Rust `enum Error` in proxy.rs (`Error::ActivatingProxyDevice`, `Error::Tube`),
restricted to the variants reachable from the activation path. -/
inductive ProxyError
  | ActivatingProxyDevice
  | Tube
deriving DecidableEq, Repr

/-- Rust `TryFrom<ChildProcIntf> for ProxyDevice`: send `Command::Activate`
(propagating a tube error), receive (propagating a tube error), succeed
exactly on `CommandResult::Ok`, otherwise `Error::ActivatingProxyDevice`.
`sendOk` is the outcome of the `tube.send`, `recvResult` of the
`tube.recv` (`none` = tube error). -/
def tryFromChildProcIntf (sendOk : Bool) (recvResult : Option CommandResult) :
    Except ProxyError Unit :=
  if sendOk then
    match recvResult with
    | none => .error .Tube
    | some .Ok => .ok ()
    | some _ => .error .ActivatingProxyDevice
  else .error .Tube

/-- One synchronous parent call serviced by the child over a live channel: the
child dispatches the command; the parent receives the child's single sent
response, or nothing (a receive error) when the child sent none —
in particular when the child panicked and died. -/
def roundTrip {σ : Type} (d : BusDevice σ) (s : σ) (cmd : Command) :
    σ × Option CommandResult :=
  match dispatch d s cmd with
  | .cont s' resp => (s', resp.head?)
  | .shutdownReturn => (s, some .Ok)
  | .panic => (s, none)

/-- The command a parent-side call puts on the wire. -/
def ProxyCall.cmd : ProxyCall → Command
  | .sync c => c
  | .fireAndForget c => c

/-- Rust `write(info, wdata)` then `read(info, rbuf)` issued through the
ProxyDevice over a live channel: the parent marshals `Command::Write` (no
response awaited) and `Command::Read`, the child dispatches both against
the real device, and the parent unmarshals the read response into the
caller's buffer. Returns the caller's buffer after the read. -/
def proxyWriteRead {σ : Type} (d : BusDevice σ) (s : σ) (infoW : BusAccessInfo)
    (wdata : List Nat) (infoR : BusAccessInfo) (rbuf : List Nat) : List Nat :=
  let r1 := roundTrip d s (ProxyDevice.write_call infoW wdata).cmd
  let r2 := roundTrip d r1.1 (ProxyDevice.read_call infoR rbuf).cmd
  ProxyDevice.read_update rbuf r2.2

/-- The same sequence run directly on the in-process device: `write(info,
wdata)` then `read(info, ·)` into a fresh zero-initialized buffer of the
same length as the caller's buffer; returns the bytes the read yields. -/
def directWriteRead {σ : Type} (d : BusDevice σ) (s : σ) (infoW : BusAccessInfo)
    (wdata : List Nat) (infoR : BusAccessInfo) (rbuf : List Nat) : List Nat :=
  (d.read (d.write s infoW wdata) infoR (List.replicate rbuf.length 0)).2

/-- Well-formed protocol messages (spec §4.1): the inline data arrays have
their declared fixed size and `len` fits inside them — exactly the shapes
the parent-side marshalling produces. -/
def Command.wf : Command → Bool
  | .Read len _ => len ≤ 8
  | .Write len _ data => data.length = 8 && len ≤ 8
  | .WriteConfig _ _ len data => data.length = 4 && len ≤ 4
  | _ => true

/-- Is this event an attempted response send? -/
def Event.isSend : Event → Bool
  | .send _ _ => true
  | _ => false

/-- Number of response messages the child attempted to send in a trace. -/
def sendCount (evs : List Event) : Nat := (evs.filter Event.isSend).length

/-- The spec-side response count (§4.1): every request other than `Write`,
`DestroyDevice` (and a duplicate `Activate`, which is fatal) has exactly
one response; those two have none. -/
def expectedResponses : Command → Nat
  | .Write .. => 0
  | .DestroyDevice => 0
  | _ => 1

/-- A concrete register-file device used to instantiate the theorems: state
is the byte list most recently written; `read` yields the stored byte at
each covered position (0 where none is stored). -/
def memDevice : BusDevice (List Nat) where
  read s _ buf := (s, (List.range buf.length).map fun i => s.getD i 0)
  write _ _ data := data
  config_register_read s idx := s.getD idx 0
  config_register_write _ _ _ data := (data, {})
  init_pci_config_mapping s _ _ _ := (s, true)
  virtual_config_register_read s idx := s.getD idx 0
  virtual_config_register_write s _ value := value :: s
  destroy_device s := s
  get_ranges _ := []
  snapshot s := (s, .ok ⟨s.length⟩)
  restore s _ := (s, .ok ())
  sleep s := (s, .ok ())
  wake s := (s, .ok ())

/-- A concrete device whose lifecycle operations all fail, used to
instantiate the error-conversion theorems. -/
def faultyDevice : BusDevice Unit where
  read s _ buf := (s, buf)
  write s _ _ := s
  config_register_read _ _ := 0
  config_register_write s _ _ _ := (s, {})
  init_pci_config_mapping s _ _ _ := (s, false)
  virtual_config_register_read _ _ := 0
  virtual_config_register_write s _ _ := s
  destroy_device s := s
  get_ranges _ := []
  snapshot s := (s, .error ⟨"snapshot failed"⟩)
  restore s _ := (s, .error ⟨"restore failed"⟩)
  sleep s := (s, .error ⟨"sleep failed"⟩)
  wake s := (s, .error ⟨"wake failed"⟩)

/-- Rust `Vec::dedup`: remove consecutive duplicate elements, keeping the first of
each run. -/
def dedupAdjacent : List Nat → List Nat
  | [] => []
  | [a] => [a]
  | a :: b :: rest =>
      if a = b then dedupAdjacent (b :: rest) else a :: dedupAdjacent (b :: rest)

/-- The keep-list preprocessing in `fork_process` (process.rs lines 95–97):
`keep_rds.sort_unstable(); keep_rds.dedup();` — this is the list handed to
`jail.fork(Some(&keep_rds))`. `sort_unstable` on raw descriptors is
modelled by insertion sort: stability is unobservable on a totally ordered
element type. -/
def fork_process_keep (keep_rds : List Nat) : List Nat :=
  dedupAdjacent (keep_rds.insertionSort (· ≤ ·))

/-- Rust `ChildProcIntf::new` appends the child-side channel endpoint to the
caller's keep-list (`keep_rds.push(child_tube.as_raw_descriptor())`,
proxy.rs line 266) before handing it to `fork_process`. -/
def childProcIntfKeep (keep_rds : List Nat) (child_tube_fd : Nat) : List Nat :=
  keep_rds ++ [child_tube_fd]

/-! ### Helper lemmas -/

theorem dedupAdjacent_sublist : ∀ l : List Nat, List.Sublist (dedupAdjacent l) l
  | [] => .slnil
  | [a] => List.Sublist.refl _
  | a :: b :: rest => by
    show List.Sublist
      (if a = b then dedupAdjacent (b :: rest) else a :: dedupAdjacent (b :: rest)) _
    by_cases h : a = b
    · rw [if_pos h]
      exact (dedupAdjacent_sublist (b :: rest)).cons a
    · rw [if_neg h]
      exact (dedupAdjacent_sublist (b :: rest)).cons₂ a

theorem mem_dedupAdjacent : ∀ (l : List Nat) (x : Nat), x ∈ dedupAdjacent l ↔ x ∈ l
  | [], x => Iff.rfl
  | [a], x => Iff.rfl
  | a :: b :: rest, x => by
    show x ∈ (if a = b then dedupAdjacent (b :: rest) else a :: dedupAdjacent (b :: rest))
      ↔ _
    by_cases h : a = b
    · rw [if_pos h, mem_dedupAdjacent (b :: rest) x]
      subst h
      simp only [List.mem_cons]
      tauto
    · rw [if_neg h]
      simp only [List.mem_cons, mem_dedupAdjacent (b :: rest) x]

theorem dedupAdjacent_sorted_lt :
    ∀ l : List Nat, l.Sorted (· ≤ ·) → (dedupAdjacent l).Sorted (· < ·)
  | [], _ => List.sorted_nil
  | [a], _ => List.sorted_singleton a
  | a :: b :: rest, hs => by
    have htail : (b :: rest).Sorted (· ≤ ·) := hs.of_cons
    show List.Sorted _
      (if a = b then dedupAdjacent (b :: rest) else a :: dedupAdjacent (b :: rest))
    by_cases h : a = b
    · rw [if_pos h]
      exact dedupAdjacent_sorted_lt (b :: rest) htail
    · rw [if_neg h]
      simp only [List.sorted_cons]
      refine ⟨fun x hx => ?_, dedupAdjacent_sorted_lt (b :: rest) htail⟩
      have hxmem : x ∈ b :: rest := (mem_dedupAdjacent _ x).mp hx
      have hab : a ≤ b := List.rel_of_sorted_cons hs b (by simp)
      have halt : a < b := lt_of_le_of_ne hab h
      rcases List.mem_cons.mp hxmem with rfl | hxr
      · exact halt
      · exact lt_of_lt_of_le halt (List.rel_of_sorted_cons htail x hxr)

/-- The `Active` loop in lockstep: a message whose dispatch continues the
loop contributes its events in front of the continuation's events. -/
theorem childActive_cons_cont {σ : Type} (d : BusDevice σ) (s s' : σ) (cmd : Command)
    (resp : List CommandResult) (h : dispatch d s cmd = .cont s' resp) (ok : Bool)
    (rest : List StepIn) :
    childActive d s ({ recv := some cmd, sendOk := ok } :: rest)
      = (contEvents resp ok ++ (childActive d s' rest).1, (childActive d s' rest).2) := by
  simp [childActive, h]

/-- Each response produces exactly one (attempted) send event; the optional
trailing `error!` log is not a send. -/
theorem sendCount_contEvents (resp : List CommandResult) (ok : Bool) :
    sendCount (contEvents resp ok) = resp.length := by
  have h1 : ∀ r : List CommandResult,
      ((r.map (Event.send · ok)).filter Event.isSend).length = r.length := by
    intro r
    induction r with
    | nil => rfl
    | cons a t ih => simp [Event.isSend, ih]
  unfold contEvents sendCount
  by_cases h : (ok : Prop) ∨ (resp.isEmpty : Prop)
  · rw [if_pos h, List.append_nil]
    exact h1 resp
  · rw [if_neg h, List.filter_append]
    simp [Event.isSend, h1 resp]

/-! ### C6: keep-list deduplication and child endpoint -/

/-- C6: for every keep-list (duplicates included), the list `fork_process`
hands to the jail fork is sorted and duplicate-free, and `ChildProcIntf::new`
appends the child-side channel endpoint to the keep-list before forking, so
that endpoint survives into the forked list. -/
theorem keep_list_dedup_sorted (keep_rds : List Nat) (child_fd : Nat) :
    (∀ l : List Nat,
        (fork_process_keep l).Sorted (· ≤ ·) ∧ (fork_process_keep l).Nodup ∧
        ∀ x, x ∈ fork_process_keep l ↔ x ∈ l) ∧
    childProcIntfKeep keep_rds child_fd = keep_rds ++ [child_fd] ∧
    child_fd ∈ fork_process_keep (childProcIntfKeep keep_rds child_fd) := by
  have key : ∀ l : List Nat,
      (fork_process_keep l).Sorted (· ≤ ·) ∧ (fork_process_keep l).Nodup ∧
      ∀ x, x ∈ fork_process_keep l ↔ x ∈ l := by
    intro l
    have hsorted : (l.insertionSort (· ≤ ·)).Sorted (· ≤ ·) :=
      List.sorted_insertionSort (· ≤ ·) l
    have hlt : (fork_process_keep l).Sorted (· < ·) :=
      dedupAdjacent_sorted_lt _ hsorted
    refine ⟨?_, hlt.nodup, fun x => ?_⟩
    · exact hsorted.sublist (dedupAdjacent_sublist _)
    · rw [fork_process_keep, mem_dedupAdjacent]
      exact (List.perm_insertionSort (· ≤ ·) l).mem_iff
  refine ⟨key, rfl, ?_⟩
  rw [(key _).2.2]
  simp [childProcIntfKeep]

/-! ### C4: shutdown teardown ordering -/

/-- C4: in the `Active` loop, `Command::Shutdown` drops the device model
(running its teardown) strictly before sending the `CommandResult::Ok`
acknowledgment, then exits the service loop, leaving any further traffic on
the channel unserviced; and `Drop for ProxyDevice` is what sends `Shutdown`.
The event list `[deviceDropped, send Ok]` fixes the order, and the run is
independent of `rest`. -/
theorem shutdown_teardown_before_ack {σ : Type} (d : BusDevice σ) (s : σ)
    (ok : Bool) (rest : List StepIn) :
    childActive d s ({ recv := some .Shutdown, sendOk := ok } :: rest)
        = ([.deviceDropped, .send .Ok ok], .shutdownReturn) ∧
    ProxyDevice.drop_call = .sync .Shutdown := by
  exact ⟨rfl, rfl⟩

/-! ### C10: WriteVirtualConfig is synchronous -/

/-- C10: `WriteVirtualConfig` is a synchronous operation, not fire-and-forget:
the parent's `virtual_config_register_write` goes through `sync_send`
(a `.sync` call), the child replies with the plain `CommandResult::Ok`
variant (carrying no bus-range deltas, unlike `WriteConfig`), and the parent
discards whatever response arrives, returning unit. -/
theorem write_virtual_config_synchronous {σ : Type} (d : BusDevice σ) (s : σ)
    (reg_idx value : Nat) :
    ProxyDevice.virtual_config_register_write_call reg_idx value
        = .sync (.WriteVirtualConfig reg_idx value) ∧
    dispatch d s (.WriteVirtualConfig reg_idx value)
        = .cont (d.virtual_config_register_write s reg_idx value) [.Ok] ∧
    ∀ resp, ProxyDevice.virtual_config_register_write_update resp = () := by
  exact ⟨rfl, rfl, fun _ => rfl⟩

/-! ### C5: half-duplex response discipline -/

/-- C5: in the `Active` loop, every well-formed received request other than
`Write`, `DestroyDevice` and a duplicate `Activate` causes exactly one
response send, `Write` and `DestroyDevice` cause zero, and responses come
one per request in request order: the events of handling one request sit in
front of the continuation's events (no pipelining, no reordering), with the
loop ending exactly at `Shutdown`. -/
theorem child_response_discipline {σ : Type} (d : BusDevice σ) (s : σ)
    (cmd : Command) (hwf : cmd.wf = true) (hact : cmd ≠ .Activate) (ok : Bool)
    (rest : List StepIn) :
    ∃ stepEvs k,
      childActive d s ({ recv := some cmd, sendOk := ok } :: rest) = (stepEvs ++ k.1, k.2) ∧
      sendCount stepEvs = expectedResponses cmd ∧
      (cmd = .Shutdown → k = (([], .shutdownReturn) : List Event × Outcome)) ∧
      (cmd ≠ .Shutdown → ∃ s' resp, dispatch d s cmd = .cont s' resp ∧
          stepEvs = contEvents resp ok ∧ k = childActive d s' rest) := by
  by_cases hsd : cmd = .Shutdown
  · subst hsd
    exact ⟨[.deviceDropped, .send .Ok ok], ([], .shutdownReturn), rfl, rfl,
      fun _ => rfl, fun h => absurd rfl h⟩
  · have key : ∃ s' resp, dispatch d s cmd = .cont s' resp ∧
        resp.length = expectedResponses cmd := by
      cases cmd with
      | Activate => exact absurd rfl hact
      | Shutdown => exact absurd rfl hsd
      | Read len info =>
        simp only [Command.wf, decide_eq_true_eq] at hwf
        refine ⟨(d.read s info (List.replicate len 0)).1,
          [.ReadResult ((d.read s info (List.replicate len 0)).2.take len
            ++ List.replicate (8 - len) 0)], ?_, rfl⟩
        simp [dispatch, hwf]
      | Write len info data =>
        simp only [Command.wf, Bool.and_eq_true, decide_eq_true_eq] at hwf
        have hle : len ≤ data.length := hwf.1 ▸ hwf.2
        refine ⟨d.write s info (data.take len), [], ?_, rfl⟩
        simp [dispatch, hle]
      | WriteConfig reg_idx offset len data =>
        simp only [Command.wf, Bool.and_eq_true, decide_eq_true_eq] at hwf
        have hle : len ≤ data.length := hwf.1 ▸ hwf.2
        refine ⟨(d.config_register_write s reg_idx offset (data.take len)).1,
          [.WriteConfigResult
            (d.config_register_write s reg_idx offset (data.take len)).2.mmio_remove
            (d.config_register_write s reg_idx offset (data.take len)).2.mmio_add
            (d.config_register_write s reg_idx offset (data.take len)).2.io_remove
            (d.config_register_write s reg_idx offset (data.take len)).2.io_add
            (d.config_register_write s reg_idx offset
              (data.take len)).2.removed_pci_devices], ?_, rfl⟩
        simp [dispatch, hle]
      | ReadConfig idx => exact ⟨_, _, rfl, rfl⟩
      | InitPciConfigMapping shmem base len => exact ⟨_, _, rfl, rfl⟩
      | ReadVirtualConfig idx => exact ⟨_, _, rfl, rfl⟩
      | WriteVirtualConfig reg_idx value => exact ⟨_, _, rfl, rfl⟩
      | DestroyDevice => exact ⟨_, _, rfl, rfl⟩
      | GetRanges => exact ⟨_, _, rfl, rfl⟩
      | Snapshot => exact ⟨_, _, rfl, rfl⟩
      | Restore data => exact ⟨_, _, rfl, rfl⟩
      | Sleep => exact ⟨_, _, rfl, rfl⟩
      | Wake => exact ⟨_, _, rfl, rfl⟩
    obtain ⟨s', resp, hd, hlen⟩ := key
    refine ⟨contEvents resp ok, childActive d s' rest,
      childActive_cons_cont d s s' cmd resp hd ok rest, ?_,
      fun h => absurd h hsd, fun _ => ⟨s', resp, hd, rfl, rfl⟩⟩
    rw [sendCount_contEvents, hlen]

/-- C5 witness: the discipline instantiated at a concrete device and request
(`ReadConfig 0` to `memDevice` holding `[42]`). -/
theorem child_response_discipline_witness :
    ∃ stepEvs k,
      childActive memDevice [42]
          ({ recv := some (.ReadConfig 0), sendOk := true } :: []) = (stepEvs ++ k.1, k.2) ∧
      sendCount stepEvs = expectedResponses (.ReadConfig 0) ∧
      ((.ReadConfig 0 : Command) = .Shutdown → k = (([], .shutdownReturn) : List Event × Outcome)) ∧
      ((.ReadConfig 0 : Command) ≠ .Shutdown → ∃ s' resp,
          dispatch memDevice [42] (.ReadConfig 0) = .cont s' resp ∧
          stepEvs = contEvents resp true ∧ k = childActive memDevice s' []) :=
  child_response_discipline memDevice [42] (.ReadConfig 0) (by decide) (by decide) true []

/-! ### C7: device-model errors become string-carrying results -/

/-- C7: in the `Active` state, an error from the device model's `snapshot`,
`restore`, `sleep` or `wake` is converted to the corresponding
string-carrying result variant and sent as a normal response; the dispatch
continues the loop (the child neither exits nor panics because the device
operation failed), with the subsequent requests serviced as usual. -/
theorem device_errors_become_results {σ : Type} (d : BusDevice σ) (s : σ)
    (ok : Bool) (rest : List StepIn) :
    (∀ s' e, d.snapshot s = (s', .error e) →
        dispatch d s .Snapshot = .cont s' [.SnapshotResult (.error e.msg)] ∧
        childActive d s ({ recv := some .Snapshot, sendOk := ok } :: rest)
          = (contEvents [.SnapshotResult (.error e.msg)] ok ++ (childActive d s' rest).1,
             (childActive d s' rest).2)) ∧
    (∀ data s' e, d.restore s data = (s', .error e) →
        dispatch d s (.Restore data) = .cont s' [.RestoreResult (.error e.msg)] ∧
        childActive d s ({ recv := some (.Restore data), sendOk := ok } :: rest)
          = (contEvents [.RestoreResult (.error e.msg)] ok ++ (childActive d s' rest).1,
             (childActive d s' rest).2)) ∧
    (∀ s' e, d.sleep s = (s', .error e) →
        dispatch d s .Sleep = .cont s' [.SleepResult (.error e.msg)] ∧
        childActive d s ({ recv := some .Sleep, sendOk := ok } :: rest)
          = (contEvents [.SleepResult (.error e.msg)] ok ++ (childActive d s' rest).1,
             (childActive d s' rest).2)) ∧
    (∀ s' e, d.wake s = (s', .error e) →
        dispatch d s .Wake = .cont s' [.WakeResult (.error e.msg)] ∧
        childActive d s ({ recv := some .Wake, sendOk := ok } :: rest)
          = (contEvents [.WakeResult (.error e.msg)] ok ++ (childActive d s' rest).1,
             (childActive d s' rest).2)) := by
  refine ⟨fun s' e h => ?_, fun data s' e h => ?_, fun s' e h => ?_, fun s' e h => ?_⟩ <;>
    (first
      | (have hd : dispatch d s .Snapshot = .cont s' [.SnapshotResult (.error e.msg)] := by
          simp [dispatch, h, errString]
         exact ⟨hd, childActive_cons_cont d s s' _ _ hd ok rest⟩)
      | (have hd : dispatch d s (.Restore data) = .cont s' [.RestoreResult (.error e.msg)] := by
          simp [dispatch, h, errString]
         exact ⟨hd, childActive_cons_cont d s s' _ _ hd ok rest⟩)
      | (have hd : dispatch d s .Sleep = .cont s' [.SleepResult (.error e.msg)] := by
          simp [dispatch, h, errString]
         exact ⟨hd, childActive_cons_cont d s s' _ _ hd ok rest⟩)
      | (have hd : dispatch d s .Wake = .cont s' [.WakeResult (.error e.msg)] := by
          simp [dispatch, h, errString]
         exact ⟨hd, childActive_cons_cont d s s' _ _ hd ok rest⟩))

/-- C7 witness: the error conversion instantiated at `faultyDevice`, whose
four lifecycle operations all fail. -/
theorem device_errors_become_results_witness :
    dispatch faultyDevice () .Snapshot
        = .cont () [.SnapshotResult (.error "snapshot failed")] ∧
    dispatch faultyDevice () (.Restore ⟨0⟩)
        = .cont () [.RestoreResult (.error "restore failed")] ∧
    dispatch faultyDevice () .Sleep = .cont () [.SleepResult (.error "sleep failed")] ∧
    dispatch faultyDevice () .Wake = .cont () [.WakeResult (.error "wake failed")] :=
  ⟨((device_errors_become_results faultyDevice () true []).1 () ⟨"snapshot failed"⟩ rfl).1,
   ((device_errors_become_results faultyDevice () true []).2.1 ⟨0⟩ () ⟨"restore failed"⟩ rfl).1,
   ((device_errors_become_results faultyDevice () true []).2.2.1 () ⟨"sleep failed"⟩ rfl).1,
   ((device_errors_become_results faultyDevice () true []).2.2.2 () ⟨"wake failed"⟩ rfl).1⟩

/-! ### C2: activation is fatal when misused, and cannot succeed twice -/

/-- C2: in the child, receiving any first message other than `Activate`, or a
second `Activate` once active, panics (aborts the child process — fatal,
not recoverable); and on the parent side a `TryFrom` conversion whose
channel fails or whose received message is anything but `CommandResult::Ok`
does not produce a `ProxyDevice`. Since the child's rejection of a
duplicate `Activate` sends nothing (the event list is empty), a second
conversion of the same session descriptor can only see a receive failure or
a non-`Ok` message, hence never silently succeeds. -/
theorem single_activation {σ : Type} (d : BusDevice σ) (s : σ) :
    (∀ cmd, cmd ≠ .Activate → ∀ ok rest,
        child_proc d s ({ recv := some cmd, sendOk := ok } :: rest) = ([], .panicked)) ∧
    (∀ ok rest,
        childActive d s ({ recv := some .Activate, sendOk := ok } :: rest)
          = ([], .panicked)) ∧
    (∀ sendOk, tryFromChildProcIntf sendOk none ≠ .ok ()) ∧
    (∀ sendOk r, r ≠ some .Ok → tryFromChildProcIntf sendOk r ≠ .ok ()) := by
  refine ⟨?_, fun ok rest => rfl, ?_, ?_⟩
  · intro cmd h ok rest
    cases cmd <;> first | exact absurd rfl h | rfl
  · intro sendOk
    cases sendOk <;> simp [tryFromChildProcIntf]
  · intro sendOk r h
    match sendOk, r with
    | false, _ => simp [tryFromChildProcIntf]
    | true, none => simp [tryFromChildProcIntf]
    | true, some cr =>
      cases cr
      case Ok => exact absurd rfl h
      all_goals simp [tryFromChildProcIntf]

/-- C2 witness: the fatal paths at concrete inputs — a pre-activation
`Shutdown` panics, a duplicate `Activate` panics, and a conversion that
receives nothing fails. -/
theorem single_activation_witness :
    child_proc memDevice [] ({ recv := some .Shutdown, sendOk := true } :: [])
        = ([], .panicked) ∧
    childActive memDevice [] ({ recv := some .Activate, sendOk := true } :: [])
        = ([], .panicked) ∧
    tryFromChildProcIntf true none ≠ .ok () :=
  ⟨(single_activation memDevice []).1 .Shutdown (by decide) true [],
   (single_activation memDevice []).2.1 true [],
   (single_activation memDevice []).2.2.1 true⟩

/-! ### C8: channel failures (corrected) -/

/-- C8 counterexample: a channel failure after activation does NOT always end
the service loop. Concretely, with the send of the `GetRanges` response
failing, the child logs the send error and then services the next request
(`ReadConfig 0`, acknowledged), ending the trace still running — refuting
"after activation, any channel failure ends the child's service loop
without any acknowledgment message being sent". -/
theorem send_failure_does_not_end_loop :
    childActive memDevice [] [{ recv := some .GetRanges, sendOk := false },
        { recv := some (.ReadConfig 0), sendOk := true }]
      = ([.send (.GetRangesResult []) false, .log, .send (.ReadConfigResult 0) true],
         .running) := by
  rfl

/-- C8 (amended): before activation, a channel receive failure makes the
child log and return without panicking, the device dropped on the way out;
after activation, a channel *receive* failure ends the service loop with no
acknowledgment message sent (events `[log, deviceDropped]` contain no
send), while a response *send* failure is merely logged and the loop
continues with the next request. -/
theorem channel_failure_handling {σ : Type} (d : BusDevice σ) (s : σ) :
    (∀ ok rest, child_proc d s ({ recv := none, sendOk := ok } :: rest)
        = ([.log, .deviceDropped], .returnedPreActivation)) ∧
    (∀ ok rest, childActive d s ({ recv := none, sendOk := ok } :: rest)
        = ([.log, .deviceDropped], .exitedLoop)) ∧
    (∀ cmd s' resp rest, dispatch d s cmd = .cont s' resp →
        childActive d s ({ recv := some cmd, sendOk := false } :: rest)
          = (contEvents resp false ++ (childActive d s' rest).1,
             (childActive d s' rest).2)) :=
  ⟨fun _ _ => rfl, fun _ _ => rfl,
   fun cmd s' resp rest h => childActive_cons_cont d s s' cmd resp h false rest⟩

/-- C8 witness: the amended statement applied at a concrete device and trace. -/
theorem channel_failure_handling_witness :
    childActive memDevice [] ({ recv := some .GetRanges, sendOk := false } :: [])
      = (contEvents [.GetRangesResult []] false ++ (childActive memDevice [] []).1,
         (childActive memDevice [] []).2) :=
  (channel_failure_handling memDevice []).2.2 .GetRanges [] [.GetRangesResult []] [] rfl

/-! ### C3: degraded results on channel loss (corrected) -/

/-- C3 counterexample: on channel loss the degraded `read` does not yield a
zero/default buffer — it leaves the caller's buffer exactly as it was.
With caller buffer `[7]` and no response, the buffer stays `[7]`; a default
(zeroed) 1-byte buffer would be `[0]`. -/
theorem degraded_read_keeps_buffer :
    ProxyDevice.read_update [7] none = [7] ∧ ProxyDevice.read_update [7] none ≠ [0] := by
  decide

/-- C3 (amended): for every synchronous ProxyDevice operation, if the channel
send fails or the received message is not the matching response variant,
the call returns a degraded value without panicking: `config_register_read`
and `virtual_config_register_read` return 0, `read` leaves the caller's
buffer unmodified, `get_ranges` and `config_register_write` return
`Default::default()`, and `snapshot`/`restore`/`sleep`/`wake` return a
reported error. -/
theorem degraded_on_channel_loss (label : String) (data : List Nat) :
    (∀ resp, (∀ v, resp ≠ some (.ReadConfigResult v)) →
        ProxyDevice.config_register_read_update resp = 0) ∧
    (∀ resp, (∀ v, resp ≠ some (.ReadVirtualConfigResult v)) →
        ProxyDevice.virtual_config_register_read_update resp = 0) ∧
    (∀ resp, (∀ b, resp ≠ some (.ReadResult b)) →
        ProxyDevice.read_update data resp = data) ∧
    (∀ resp, (∀ r, resp ≠ some (.GetRangesResult r)) →
        ProxyDevice.get_ranges_update resp = []) ∧
    (∀ resp, (∀ a b c e f, resp ≠ some (.WriteConfigResult a b c e f)) →
        ProxyDevice.config_register_write_update resp = {}) ∧
    (∀ resp, (∀ r, resp ≠ some (.SnapshotResult r)) →
        ∃ e, ProxyDevice.snapshot_update label resp = .error e) ∧
    (∀ resp, (∀ r, resp ≠ some (.RestoreResult r)) →
        ∃ e, ProxyDevice.restore_update label resp = .error e) ∧
    (∀ resp, (∀ r, resp ≠ some (.SleepResult r)) →
        ∃ e, ProxyDevice.sleep_update label resp = .error e) ∧
    (∀ resp, (∀ r, resp ≠ some (.WakeResult r)) →
        ∃ e, ProxyDevice.wake_update label resp = .error e) := by
  refine ⟨?_, ?_, ?_, ?_, ?_, ?_, ?_, ?_, ?_⟩ <;>
    rintro (_ | cr) h
  case _ => rfl
  case _ => cases cr <;> first | rfl | exact absurd rfl (h _)
  case _ => rfl
  case _ => cases cr <;> first | rfl | exact absurd rfl (h _)
  case _ => rfl
  case _ => cases cr <;> first | rfl | exact absurd rfl (h _)
  case _ => rfl
  case _ => cases cr <;> first | rfl | exact absurd rfl (h _)
  case _ => rfl
  case _ => cases cr <;> first | rfl | exact absurd rfl (h _ _ _ _ _)
  case _ => exact ⟨_, rfl⟩
  case _ =>
    cases cr <;> first | exact ⟨_, rfl⟩ | exact absurd rfl (h _)
  case _ => exact ⟨_, rfl⟩
  case _ =>
    cases cr <;> first | exact ⟨_, rfl⟩ | exact absurd rfl (h _)
  case _ => exact ⟨_, rfl⟩
  case _ =>
    cases cr <;> first | exact ⟨_, rfl⟩ | exact absurd rfl (h _)
  case _ => exact ⟨_, rfl⟩
  case _ =>
    cases cr <;> first | exact ⟨_, rfl⟩ | exact absurd rfl (h _)

/-- C3 witness: the degraded values at a severed channel (`resp = none`) for
every synchronous operation. -/
theorem degraded_on_channel_loss_witness :
    ProxyDevice.config_register_read_update none = 0 ∧
    ProxyDevice.virtual_config_register_read_update none = 0 ∧
    ProxyDevice.read_update [7] none = [7] ∧
    ProxyDevice.get_ranges_update none = [] ∧
    ProxyDevice.config_register_write_update none = {} ∧
    (∃ e, ProxyDevice.snapshot_update "dev" none = .error e) ∧
    (∃ e, ProxyDevice.restore_update "dev" none = .error e) ∧
    (∃ e, ProxyDevice.sleep_update "dev" none = .error e) ∧
    (∃ e, ProxyDevice.wake_update "dev" none = .error e) :=
  ⟨(degraded_on_channel_loss "dev" [7]).1 none (fun _ h => Option.noConfusion h),
   (degraded_on_channel_loss "dev" [7]).2.1 none (fun _ h => Option.noConfusion h),
   (degraded_on_channel_loss "dev" [7]).2.2.1 none (fun _ h => Option.noConfusion h),
   (degraded_on_channel_loss "dev" [7]).2.2.2.1 none (fun _ h => Option.noConfusion h),
   (degraded_on_channel_loss "dev" [7]).2.2.2.2.1 none
     (fun _ _ _ _ _ h => Option.noConfusion h),
   (degraded_on_channel_loss "dev" [7]).2.2.2.2.2.1 none (fun _ h => Option.noConfusion h),
   (degraded_on_channel_loss "dev" [7]).2.2.2.2.2.2.1 none
     (fun _ h => Option.noConfusion h),
   (degraded_on_channel_loss "dev" [7]).2.2.2.2.2.2.2.1 none
     (fun _ h => Option.noConfusion h),
   (degraded_on_channel_loss "dev" [7]).2.2.2.2.2.2.2.2 none
     (fun _ h => Option.noConfusion h)⟩

/-! ### C9: Read requests are in bounds and lengths line up -/

/-- Taking the length of the left part of an append returns that part. -/
theorem take_length_append {α : Type _} (l₁ l₂ : List α) (n : Nat) (h : l₁.length = n) :
    (l₁ ++ l₂).take n = l₁ := by
  subst h
  exact List.take_left l₁ l₂

theorem memDevice_readLenPreserving : ReadLenPreserving memDevice := by
  intro s info buf
  simp [memDevice]

/-- C9: for every `Read` request with `len ∈ [1,8]`, the child's slicing
`buffer[0..len]` of its 8-byte inline buffer is in bounds — the handler
dispatches without panicking — and a full 8-byte `ReadResult` is returned
whose first `len` bytes are the device's read; the parent's
`ProxyDevice::read`, called with a buffer of length `len`, marshals exactly
that `len` and copies back exactly the first `len` bytes of the result. -/
theorem read_request_safe {σ : Type} (d : BusDevice σ) (hl : ReadLenPreserving d)
    (s : σ) (info : BusAccessInfo) (data : List Nat)
    (h1 : 1 ≤ data.length) (h2 : data.length ≤ 8) :
    (∃ s' bytes, dispatch d s (.Read data.length info) = .cont s' [.ReadResult bytes] ∧
        bytes.length = 8 ∧
        bytes.take data.length = (d.read s info (List.replicate data.length 0)).2) ∧
    ProxyDevice.read_call info data = .sync (.Read data.length info) ∧
    (∀ bytes, bytes.length = 8 →
        ProxyDevice.read_update data (some (.ReadResult bytes)) = bytes.take data.length) := by
  have hout : (d.read s info (List.replicate data.length 0)).2.length = data.length := by
    rw [hl, List.length_replicate]
  have htk : (d.read s info (List.replicate data.length 0)).2.take data.length
      = (d.read s info (List.replicate data.length 0)).2 :=
    List.take_of_length_le (le_of_eq hout)
  refine ⟨⟨(d.read s info (List.replicate data.length 0)).1,
    (d.read s info (List.replicate data.length 0)).2
      ++ List.replicate (8 - data.length) 0, ?_, ?_, ?_⟩, rfl, fun _ _ => rfl⟩
  · simp only [dispatch]
    rw [if_pos h2, htk]
  · rw [List.length_append, hout, List.length_replicate, Nat.add_sub_cancel' h2]
  · exact take_length_append _ _ _ hout

/-- C9 witness: a concrete 1-byte read from `memDevice` storing `[42]`. -/
theorem read_request_safe_witness :
    (∃ s' bytes,
        dispatch memDevice [42] (.Read [7].length ⟨0, 0, 0⟩) = .cont s' [.ReadResult bytes] ∧
        bytes.length = 8 ∧
        bytes.take [7].length = (memDevice.read [42] ⟨0, 0, 0⟩ (List.replicate [7].length 0)).2) ∧
    ProxyDevice.read_call ⟨0, 0, 0⟩ [7] = .sync (.Read [7].length ⟨0, 0, 0⟩) ∧
    (∀ bytes, bytes.length = 8 →
        ProxyDevice.read_update [7] (some (.ReadResult bytes)) = bytes.take [7].length) :=
  read_request_safe memDevice memDevice_readLenPreserving [42] ⟨0, 0, 0⟩ [7]
    (by decide) (by decide)

/-! ### C1: proxied write-then-read refines the in-process device -/

/-- C1: for every device model honouring the bus-device interface (its `read`
fills the slice it is handed without resizing it) and every
`write(info, data)`-then-`read(info)` sequence with lengths in `[1,8]`,
issuing the sequence through the ProxyDevice — the parent marshals
`Command::Write`/`Command::Read`, the child dispatches to the real device —
yields the same read bytes as running the sequence directly on the
in-process device, where the read fills a fresh zero-initialized buffer
(exactly what the child hands the device, and what the repo's own
round-trip test does). -/
theorem proxy_refines_direct {σ : Type} (d : BusDevice σ) (hl : ReadLenPreserving d)
    (s : σ) (infoW infoR : BusAccessInfo) (wdata rbuf : List Nat)
    (hw1 : 1 ≤ wdata.length) (hw2 : wdata.length ≤ 8)
    (hr1 : 1 ≤ rbuf.length) (hr2 : rbuf.length ≤ 8) :
    proxyWriteRead d s infoW wdata infoR rbuf
      = directWriteRead d s infoW wdata infoR rbuf := by
  have hw : wdata.length ≤ (ProxyDevice.padTo 8 wdata).length := by
    simp [ProxyDevice.padTo]
  have htake : (ProxyDevice.padTo 8 wdata).take wdata.length = wdata :=
    List.take_left wdata (List.replicate (8 - wdata.length) 0)
  have e1 : roundTrip d s (ProxyDevice.write_call infoW wdata).cmd
      = (d.write s infoW wdata, none) := by
    show roundTrip d s (.Write wdata.length infoW (ProxyDevice.padTo 8 wdata)) = _
    unfold roundTrip
    simp only [dispatch]
    rw [if_pos hw, htake]
    rfl
  have hout : (d.read (d.write s infoW wdata) infoR
      (List.replicate rbuf.length 0)).2.length = rbuf.length := by
    rw [hl, List.length_replicate]
  have htk : (d.read (d.write s infoW wdata) infoR
        (List.replicate rbuf.length 0)).2.take rbuf.length
      = (d.read (d.write s infoW wdata) infoR (List.replicate rbuf.length 0)).2 :=
    List.take_of_length_le (le_of_eq hout)
  have e2 : roundTrip d (d.write s infoW wdata) (ProxyDevice.read_call infoR rbuf).cmd
      = ((d.read (d.write s infoW wdata) infoR (List.replicate rbuf.length 0)).1,
         some (.ReadResult
           ((d.read (d.write s infoW wdata) infoR (List.replicate rbuf.length 0)).2
             ++ List.replicate (8 - rbuf.length) 0))) := by
    show roundTrip d (d.write s infoW wdata) (.Read rbuf.length infoR) = _
    unfold roundTrip
    simp only [dispatch]
    rw [if_pos hr2, htk]
    rfl
  show ProxyDevice.read_update rbuf
      (roundTrip d (roundTrip d s (ProxyDevice.write_call infoW wdata).cmd).1
        (ProxyDevice.read_call infoR rbuf).cmd).2 = _
  rw [e1, e2]
  show ((d.read (d.write s infoW wdata) infoR (List.replicate rbuf.length 0)).2
      ++ List.replicate (8 - rbuf.length) 0).take rbuf.length = _
  exact take_length_append _ _ _ hout

/-- C1 witness: the refinement at a concrete device and sequence — write
`[42]` then read one byte through the proxy and directly (both give `[42]`,
as in the repo's `test_proxied_read_write`). -/
theorem proxy_refines_direct_witness :
    proxyWriteRead memDevice [] ⟨0, 0, 0⟩ [42] ⟨0, 0, 0⟩ [0]
        = directWriteRead memDevice [] ⟨0, 0, 0⟩ [42] ⟨0, 0, 0⟩ [0] ∧
    proxyWriteRead memDevice [] ⟨0, 0, 0⟩ [42] ⟨0, 0, 0⟩ [0] = [42] :=
  ⟨proxy_refines_direct memDevice memDevice_readLenPreserving [] ⟨0, 0, 0⟩ ⟨0, 0, 0⟩
      [42] [0] (by decide) (by decide) (by decide) (by decide),
   by decide⟩

end Crosvm
